import Mathlib

/-!
Shallow embedding of the NewsAPI browser client
(`src/unnamed/part_003`, the mode-aware client; `frontend_app/src/services/newsApi.js`
is an earlier revision of the same module with identical parameter handling).

JavaScript values flowing through the client (payloads, filter fields) are
modelled by the inductive `Jsonv`; `undefined` is modelled by `Option Jsonv`
(`none` = absent/undefined).  JS numbers are modelled as integers: every
numeric value the client manipulates (page, pageSize, HTTP status,
totalResults) is integral, and `Number(...)` coercion is modelled on
integer-formatted strings, with non-integer numerals outside the modelled
input space.  `NaN` is `none` in the result of the `Number()` model.
-/

namespace NewsClient

/-- JSON/JS value as produced by `res.json()` or passed by callers. -/
inductive Jsonv where
  | jnull : Jsonv
  | jbool : Bool → Jsonv
  | jnum : Int → Jsonv
  | jstr : String → Jsonv
  | jarr : List Jsonv → Jsonv
  | jobj : List (String × Jsonv) → Jsonv

/-- JS truthiness of a value (`NaN` is not modelled; see module comment). -/
def truthy : Jsonv → Bool
  | .jnull => false
  | .jbool b => b
  | .jnum n => n != 0
  | .jstr s => s != ""
  | .jarr _ => true
  | .jobj _ => true

/-- Optional-chaining property access `v?.k`: an object field when present,
`undefined` (`none`) on null, primitives, and arrays. -/
def jsGet : Jsonv → String → Option Jsonv
  | .jobj fields, k => fields.lookup k
  | _, _ => none

/-- JS `x || b` where `x` may be `undefined` (`none`). -/
def jsOr (a : Option Jsonv) (b : Jsonv) : Jsonv :=
  match a with
  | some v => if truthy v then v else b
  | none => b

mutual

/-- JS `String(v)` coercion. -/
def jsToString : Jsonv → String
  | .jnull => "null"
  | .jbool b => if b then "true" else "false"
  | .jnum n => toString n
  | .jstr s => s
  | .jobj _ => "[object Object]"
  | .jarr xs => String.intercalate "," (jsToStringList xs)

/-- Elements of `Array.prototype.toString`: `null` elements render as `""`. -/
def jsToStringList : List Jsonv → List String
  | [] => []
  | .jnull :: t => "" :: jsToStringList t
  | v :: t => jsToString v :: jsToStringList t

end

/-- ASCII lower-casing of one character (JS `toLowerCase` restricted to the
ASCII range; every string the client case-folds is ASCII). -/
def lowerChar (c : Char) : Char :=
  if 65 ≤ c.toNat ∧ c.toNat ≤ 90 then Char.ofNat (c.toNat + 32) else c

/-- ASCII lower-casing of a string. -/
def lowerStr (s : String) : String :=
  ⟨s.data.map lowerChar⟩

/-- JS whitespace as removed by `String.prototype.trim` (the common ASCII
set; exotic Unicode space separators are outside the modelled input space). -/
def jsWhitespace (c : Char) : Bool :=
  c == ' ' || c == '\t' || c == '\n' || c == '\r' || c.toNat == 11 || c.toNat == 12

/-- JS `s.trim()`. -/
def jsTrim (s : String) : String :=
  ⟨((s.data.dropWhile jsWhitespace).reverse.dropWhile jsWhitespace).reverse⟩

/-- Whether `s` starts with `pat`. -/
def strStartsWith (s pat : String) : Bool :=
  pat.data.isPrefixOf s.data

/-- Whether `pat` occurs as a contiguous run inside `s` (over characters). -/
def listContainsSub (pat : List Char) : List Char → Bool
  | [] => pat.isEmpty
  | c :: t => pat.isPrefixOf (c :: t) || listContainsSub pat t

/-- Case-sensitive substring test on strings (JS `String.prototype.includes`). -/
def strContainsSub (s pat : String) : Bool :=
  listContainsSub pat.toList s.toList

/-- Decimal digits to a natural number; `none` when empty or non-digit. -/
def digitsToNat (cs : List Char) : Option Nat :=
  match cs with
  | [] => none
  | _ => cs.foldl (fun acc c =>
      acc.bind fun n => if c.isDigit then some (n * 10 + (c.toNat - 48)) else none)
      (some 0)

/-- JS `Number(s)` on a string: trimmed-empty is `0`, an optional sign
followed by decimal digits is that integer, anything else is `NaN` (`none`).
(Fractional/exponent/hex numerals are outside the modelled input space.) -/
def strToNumber (s : String) : Option Int :=
  let t := jsTrim s
  if t = "" then some 0
  else
    match t.toList with
    | '-' :: cs => (digitsToNat cs).map (fun n => -(Int.ofNat n))
    | '+' :: cs => (digitsToNat cs).map Int.ofNat
    | cs => (digitsToNat cs).map Int.ofNat

/-- JS `Number(v)` coercion; `none` models `NaN`. -/
def jsToNumber : Jsonv → Option Int
  | .jnull => some 0
  | .jbool b => some (if b then 1 else 0)
  | .jnum n => some n
  | .jstr s => strToNumber s
  | .jarr xs => strToNumber (jsToString (.jarr xs))
  | .jobj _ => none

/-- JS `Number(x) || d`: the number unless it is `0` or `NaN`, else `d`. -/
def numOr (v : Option Int) (d : Int) : Int :=
  match v with
  | some n => if n = 0 then d else n
  | none => d

/-!  Configuration and mode resolution (part_003 lines 15-48). -/

/-- Resolved configuration: `getNewsApiConfig()` output.  `apiKey = none`
models the JS `undefined` (no key configured); the environment reader itself
returns either `undefined` or a non-empty string. -/
structure Config where
  base : String
  apiKey : Option String

/-- The `!apiKey` test of `doFetch` (line 124): JS falsiness of the key. -/
def keyMissing (cfg : Config) : Bool :=
  match cfg.apiKey with
  | none => true
  | some s => s == ""

/-- Model of `/^https?:\/\//i.test(base)` (line 117). -/
def validHttpBase (base : String) : Bool :=
  let b := lowerStr base
  strStartsWith b "http://" || strStartsWith b "https://"

/-- Model of `isProxyBase` (lines 21-24): `!/newsapi\.org/i.test(base || '')`. -/
def isProxyBase (base : String) : Bool :=
  !(strContainsSub (lowerStr base) "newsapi.org")

/-- The `mode` string computed in `doFetch` (line 115). -/
def modeOf (base : String) : String :=
  if isProxyBase base then "proxy" else "direct"

/-!  Error values.  Browser errors reaching this client are always `Error`
instances (fetch rejects with `TypeError` or an abort `DOMException`), so the
`err instanceof Error` test of `toUserFacingError` is identically true in the
modelled input space and `JsError` covers all thrown values.  Absent JS
properties (`code`, `status`, `details` unset) are `none`. -/

structure JsError where
  name : String := "Error"
  message : String
  code : Option String := none
  status : Option Nat := none
  details : Option Jsonv := none

/-- Model of `isNetworkOrCORSError` (lines 78-88).  The modelled `err` is always an
object, so the JS `if (!err) return false` guard never fires. -/
def isNetworkOrCORSError (e : JsError) : Bool :=
  let msg := lowerStr e.message
  e.name == "TypeError" &&
    (strContainsSub msg "failed to fetch" ||
      strContainsSub msg "networkerror" ||
      strContainsSub msg "load failed" ||
      strContainsSub msg "cors")

/-- Model of `toUserFacingError` (lines 93-104). -/
def toUserFacingError (err : JsError) (url : String) (mode : String) : JsError :=
  if isNetworkOrCORSError err then
    { message := "Network/CORS error: Unable to reach the news service (" ++ mode ++
        "). If using a proxy, ensure REACT_APP_NEWS_API_BASE points to it and that the proxy is running. Otherwise verify CORS/network access and try again."
      code := some "NETWORK"
      details := some (.jobj [("url", .jstr url), ("mode", .jstr mode)]) }
  else err

/-- Model of `mapApiError` (lines 59-72); returns the raw JS value handed to
`new Error(...)` (the constructor performs the string coercion). -/
def mapApiError (status : Nat) (payload : Jsonv) : Jsonv :=
  if status = 429 then
    .jstr "Rate limit reached. Please wait a minute before trying again."
  else
    let message := jsOr (jsGet payload "message")
      (jsOr (jsGet payload "error") (.jstr "Unexpected error contacting news service."))
    if 500 ≤ status then
      .jstr "News service is currently unavailable. Please try again later."
    else if status = 401 ∨ status = 403 then
      .jstr "Unauthorized: Please ensure a valid NewsAPI key is configured (direct mode) or proxy is authorized."
    else message

/-!  Query-string construction (`buildQuery`, lines 50-57), with the
`application/x-www-form-urlencoded` serializer of `URLSearchParams.toString`.
The callers set each key once, so `searchParams.set` is insertion in order. -/

/-- Uppercase hexadecimal digit. -/
def hexDigit (n : Nat) : Char :=
  if n < 10 then Char.ofNat (48 + n) else Char.ofNat (55 + n)

/-- UTF-8 bytes of one character, as naturals. -/
def utf8Bytes (c : Char) : List Nat :=
  let n := c.toNat
  if n < 128 then [n]
  else if n < 2048 then [192 + n / 64, 128 + n % 64]
  else if n < 65536 then [224 + n / 4096, 128 + (n / 64) % 64, 128 + n % 64]
  else [240 + n / 262144, 128 + (n / 4096) % 64, 128 + (n / 64) % 64, 128 + n % 64]

/-- One byte under the urlencoded serializer: space becomes `+`; alphanumerics
and `*-._` stay; anything else percent-escapes. -/
def encodeByte (n : Nat) : String :=
  if n = 32 then "+"
  else if (48 ≤ n ∧ n ≤ 57) ∨ (65 ≤ n ∧ n ≤ 90) ∨ (97 ≤ n ∧ n ≤ 122) ∨
      n = 42 ∨ n = 45 ∨ n = 46 ∨ n = 95 then
    String.singleton (Char.ofNat n)
  else "%" ++ String.singleton (hexDigit (n / 16)) ++ String.singleton (hexDigit (n % 16))

/-- urlencoded serialization of a string. -/
def formEncode (s : String) : String :=
  String.join ((s.toList.flatMap utf8Bytes).map encodeByte)

/-- The `value === undefined || value === null || value === ''` skip test of
`buildQuery` (`undefined` never occurs in a materialized params record). -/
def keepParam (v : Jsonv) : Bool :=
  match v with
  | .jnull => false
  | .jstr s => !(s == "")
  | _ => true

/-- Model of `buildQuery` (lines 50-57): drop absent/empty values, stringify the rest,
serialize in insertion order. -/
def buildQuery (params : List (String × Jsonv)) : String :=
  String.intercalate "&"
    ((params.filter fun p => keepParam p.2).map fun p =>
      formEncode p.1 ++ "=" ++ formEncode (jsToString p.2))

/-!  The transport and `doFetch` (lines 112-182).  The network is exogenous:
`FetchOutcome` is what the single `fetch` call would deliver — either a
rejection with a thrown error (network failure, CORS block, or an abort from
the 15-second timeout / the caller's cancellation signal, which rejects with
an `AbortError`-named exception), or a response with its HTTP status and the
result of `res.json()` (`none` = the body failed to parse, in which case the
client sets `data = null`).  `doFetch` additionally reports the request it
issued (`none` = it failed before performing any network call). -/

inductive FetchOutcome where
  | failure : JsError → FetchOutcome
  | response : Nat → Option Jsonv → FetchOutcome

/-- Model of `res.ok`: status in the success range. -/
def resOk (status : Nat) : Bool :=
  200 ≤ status && status ≤ 299

/-- Model of the test `data?.status === 'error'` (line 174). -/
def payloadSaysError (data : Jsonv) : Bool :=
  match jsGet data "status" with
  | some (.jstr s) => s == "error"
  | _ => false

/-- Endpoint resolution (lines 131-134). -/
def resolvePath (proxy : Bool) (endpoint : String) : String :=
  if endpoint == "search" then (if proxy then "search" else "everything")
  else endpoint

/-- The HTTP GET actually issued by `doFetch`: its URL, resolved path, the
params record it serialized, and the headers. -/
structure OutRequest where
  url : String
  path : String
  params : List (String × Jsonv)
  headers : List (String × String)

/-- Model of `doFetch` (lines 112-182), instrumented with the request it performed. -/
def doFetch (cfg : Config) (endpoint : String) (params : List (String × Jsonv))
    (outcome : FetchOutcome) : Except JsError Jsonv × Option OutRequest :=
  let proxy := isProxyBase cfg.base
  let mode := modeOf cfg.base
  if !(validHttpBase cfg.base) then
    (.error { message := "Invalid NewsAPI base URL. Ensure REACT_APP_NEWS_API_BASE starts with http(s)://"
              code := some "CONFIG" }, none)
  else if !proxy && keyMissing cfg then
    (.error { message := "NewsAPI key is missing. Set REACT_APP_NEWS_API_KEY in your environment or use the proxy."
              code := some "CONFIG" }, none)
  else
    let path := resolvePath proxy endpoint
    let query := buildQuery params
    let url := cfg.base ++ "/" ++ path ++ (if query == "" then "" else "?" ++ query)
    let headers : List (String × String) :=
      if proxy then [] else [("X-Api-Key", cfg.apiKey.getD "")]
    let req : OutRequest := { url := url, path := path, params := params, headers := headers }
    match outcome with
    | .failure err => (.error (toUserFacingError err url mode), some req)
    | .response status body =>
      let data := body.getD .jnull
      if !(resOk status) || payloadSaysError data then
        (.error { message := jsToString (mapApiError status data)
                  status := some status
                  details := some data }, some req)
      else
        (.ok data, some req)

/-!  Public operations (lines 184-248).  A destructured option field with a
default (`{ pageSize = 10 }`) is `Option Jsonv` with `getD`; a field without
a default (`q`, `category`) stays optional. -/

/-- Model of `Math.min(Math.max(1, Number(pageSize) || 10), 100)` (lines 196, 233),
applied to the destructured `pageSize` (default `10`). -/
def safePageSize (pageSize : Option Jsonv) : Int :=
  min (max 1 (numOr (jsToNumber (pageSize.getD (.jnum 10))) 10)) 100

/-- Model of `Math.max(1, Number(page) || 1)` (lines 197, 234), applied to the
destructured `page` (default `1`). -/
def safePage (page : Option Jsonv) : Int :=
  max 1 (numOr (jsToNumber (page.getD (.jnum 1))) 1)

/-- Model of `Array.isArray(data?.articles) ? data.articles : []` (lines 207, 246). -/
def asArray (v : Option Jsonv) : List Jsonv :=
  match v with
  | some (.jarr xs) => xs
  | _ => []

/-- The normalized value the public functions resolve with
(lines 205-208 and 244-247). -/
structure QueryResult where
  totalResults : Jsonv
  articles : List Jsonv

/-- Model of the success record (totalResults or 0, articles when an array). -/
def normalizeResult (data : Jsonv) : QueryResult :=
  { totalResults := jsOr (jsGet data "totalResults") (.jnum 0)
    articles := asArray (jsGet data "articles") }

/-- Filter record accepted by `getTopHeadlines`. -/
structure HeadFilters where
  country : Option Jsonv := none
  category : Option Jsonv := none
  pageSize : Option Jsonv := none
  page : Option Jsonv := none

/-- The params record built by `getTopHeadlines` (lines 196-203):
`category` is added only when truthy. -/
def headParams (f : HeadFilters) : List (String × Jsonv) :=
  [("country", f.country.getD (.jstr "us")),
   ("pageSize", .jnum (safePageSize f.pageSize)),
   ("page", .jnum (safePage f.page))] ++
  (match f.category with
   | some c => if truthy c then [("category", c)] else []
   | none => [])

/-- Model of `getTopHeadlines` (lines 185-209): build params, run `doFetch` on the
logical endpoint `top-headlines`, normalize the payload on success. -/
def getTopHeadlines (cfg : Config) (f : HeadFilters) (outcome : FetchOutcome) :
    Except JsError QueryResult × Option OutRequest :=
  match doFetch cfg "top-headlines" (headParams f) outcome with
  | (.error e, r) => (.error e, r)
  | (.ok data, r) => (.ok (normalizeResult data), r)

/-- Filter record accepted by `searchEverything`. -/
structure SearchFilters where
  q : Option Jsonv := none
  sortBy : Option Jsonv := none
  language : Option Jsonv := none
  pageSize : Option Jsonv := none
  page : Option Jsonv := none

/-- Model of `String(q || '').trim()` (line 224). -/
def trimmedQuery (f : SearchFilters) : String :=
  jsTrim (jsToString (jsOr f.q (.jstr "")))

/-- Model of `allowedSort.has(sortBy)` (lines 230-231): `Set.has` under `===`. -/
def sortAllowed (v : Jsonv) : Bool :=
  match v with
  | .jstr s => s == "relevancy" || s == "popularity" || s == "publishedAt"
  | _ => false

/-- The params record built by `searchEverything` (lines 230-242). -/
def searchParams (f : SearchFilters) (query : String) : List (String × Jsonv) :=
  let sortBy := f.sortBy.getD (.jstr "publishedAt")
  let sort := if sortAllowed sortBy then sortBy else .jstr "publishedAt"
  [("q", .jstr query),
   ("sortBy", sort),
   ("language", f.language.getD (.jstr "en")),
   ("pageSize", .jnum (safePageSize f.pageSize)),
   ("page", .jnum (safePage f.page))]

/-- Model of `searchEverything` (lines 212-248): validate the query, then run
`doFetch` on the logical endpoint `search` and normalize on success. -/
def searchEverything (cfg : Config) (f : SearchFilters) (outcome : FetchOutcome) :
    Except JsError QueryResult × Option OutRequest :=
  let query := trimmedQuery f
  if query == "" then
    (.error { message := "Please enter a search term.", code := some "VALIDATION" }, none)
  else
    match doFetch cfg "search" (searchParams f query) outcome with
    | (.error e, r) => (.error e, r)
    | (.ok data, r) => (.ok (normalizeResult data), r)

/-- The `code` property of the error a call rejected with (`none` when the
call resolved or the error has no `code`). -/
def errCode {α : Type} (r : Except JsError α) : Option String :=
  match r with
  | .error e => e.code
  | .ok _ => none

/-- The pageSize/page value a request carries for a given key. -/
def sentParam (r : Option OutRequest) (k : String) : Option Jsonv :=
  r.bind fun req => req.params.lookup k

/-!  Structural lemmas about `doFetch` shared by the claim theorems. -/

/-- The request `doFetch` issues once it reaches the transport step. -/
def builtRequest (cfg : Config) (ep : String) (ps : List (String × Jsonv)) : OutRequest :=
  { url := cfg.base ++ "/" ++ resolvePath (isProxyBase cfg.base) ep ++
      (if buildQuery ps == "" then "" else "?" ++ buildQuery ps)
    path := resolvePath (isProxyBase cfg.base) ep
    params := ps
    headers := if isProxyBase cfg.base then [] else [("X-Api-Key", cfg.apiKey.getD "")] }

/-- Any request `doFetch` issues carries exactly the params it was given and
the mode-resolved path and headers, and issuing it required the config
checks to pass. -/
theorem doFetch_snd_some (cfg : Config) (ep : String) (ps : List (String × Jsonv))
    (o : FetchOutcome) (req : OutRequest) (h : (doFetch cfg ep ps o).2 = some req) :
    req.params = ps ∧ req.path = resolvePath (isProxyBase cfg.base) ep ∧
    req.headers = (if isProxyBase cfg.base then [] else [("X-Api-Key", cfg.apiKey.getD "")]) ∧
    validHttpBase cfg.base = true ∧ (!(isProxyBase cfg.base) && keyMissing cfg) = false := by
  by_cases hv : validHttpBase cfg.base
  · by_cases hk : (!(isProxyBase cfg.base) && keyMissing cfg)
    · simp [doFetch, hv, hk] at h
    · rw [Bool.not_eq_true] at hk
      cases o with
      | failure err =>
        simp [doFetch, hv, hk] at h
        simp [← h, hv, hk]
      | response status body =>
        by_cases hr : (!(resOk status) || payloadSaysError (body.getD .jnull))
        · simp [doFetch, hv, hk, hr] at h
          simp [← h, hv, hk]
        · rw [Bool.not_eq_true] at hr
          simp [doFetch, hv, hk, hr] at h
          simp [← h, hv, hk]
  · simp [doFetch, hv] at h

/-- If either config check fails, `doFetch` rejects with `code = CONFIG` and
performs no request, whatever the transport would have delivered. -/
theorem doFetch_config_reject (cfg : Config) (ep : String) (ps : List (String × Jsonv))
    (o : FetchOutcome)
    (h : validHttpBase cfg.base = false ∨ (!(isProxyBase cfg.base) && keyMissing cfg) = true) :
    ∃ e : JsError, doFetch cfg ep ps o = (.error e, none) ∧ e.code = some "CONFIG" := by
  rcases h with hv | hk
  · refine ⟨{ message := "Invalid NewsAPI base URL. Ensure REACT_APP_NEWS_API_BASE starts with http(s)://"
              code := some "CONFIG" }, ?_, rfl⟩
    simp [doFetch, hv]
  · by_cases hv : validHttpBase cfg.base
    · refine ⟨{ message := "NewsAPI key is missing. Set REACT_APP_NEWS_API_KEY in your environment or use the proxy."
                code := some "CONFIG" }, ?_, rfl⟩
      simp [doFetch, hv, hk]
    · refine ⟨{ message := "Invalid NewsAPI base URL. Ensure REACT_APP_NEWS_API_BASE starts with http(s)://"
                code := some "CONFIG" }, ?_, rfl⟩
      simp [doFetch, hv]

/-- When both config checks pass and the response is accepted, `doFetch`
resolves with the parsed payload. -/
theorem doFetch_response_ok (cfg : Config) (ep : String) (ps : List (String × Jsonv))
    (status : Nat) (body : Option Jsonv)
    (hv : validHttpBase cfg.base = true)
    (hk : (!(isProxyBase cfg.base) && keyMissing cfg) = false)
    (hr : (!(resOk status) || payloadSaysError (body.getD .jnull)) = false) :
    ∃ req, doFetch cfg ep ps (.response status body) = (.ok (body.getD .jnull), some req) := by
  refine ⟨builtRequest cfg ep ps, ?_⟩
  simp [doFetch, builtRequest, hv, hk, hr]

/-- When both config checks pass and the response is refused, `doFetch`
rejects with the status-mapped error carrying status and raw payload. -/
theorem doFetch_response_err (cfg : Config) (ep : String) (ps : List (String × Jsonv))
    (status : Nat) (body : Option Jsonv)
    (hv : validHttpBase cfg.base = true)
    (hk : (!(isProxyBase cfg.base) && keyMissing cfg) = false)
    (hr : (!(resOk status) || payloadSaysError (body.getD .jnull)) = true) :
    ∃ req, doFetch cfg ep ps (.response status body) =
      (.error { message := jsToString (mapApiError status (body.getD .jnull))
                status := some status
                details := some (body.getD .jnull) }, some req) := by
  refine ⟨builtRequest cfg ep ps, ?_⟩
  simp [doFetch, builtRequest, hv, hk, hr]

/-- When both config checks pass, a transport failure surfaces as the
user-facing rewrap of the thrown error. -/
theorem doFetch_failure (cfg : Config) (ep : String) (ps : List (String × Jsonv))
    (err : JsError)
    (hv : validHttpBase cfg.base = true)
    (hk : (!(isProxyBase cfg.base) && keyMissing cfg) = false) :
    ∃ url req, doFetch cfg ep ps (.failure err) =
      (.error (toUserFacingError err url (modeOf cfg.base)), some req) := by
  refine ⟨cfg.base ++ "/" ++ resolvePath (isProxyBase cfg.base) ep ++
    (if buildQuery ps == "" then "" else "?" ++ buildQuery ps), builtRequest cfg ep ps, ?_⟩
  simp [doFetch, builtRequest, hv, hk]

/-!  Lifting the `doFetch` facts through the public operations. -/

/-- A `doFetch` rejection passes through `getTopHeadlines` unchanged. -/
theorem getTopHeadlines_error (cfg : Config) (f : HeadFilters) (o : FetchOutcome)
    (e : JsError) (r : Option OutRequest)
    (h : doFetch cfg "top-headlines" (headParams f) o = (.error e, r)) :
    getTopHeadlines cfg f o = (.error e, r) := by
  simp [getTopHeadlines, h]

/-- A `doFetch` payload is normalized by `getTopHeadlines`. -/
theorem getTopHeadlines_ok (cfg : Config) (f : HeadFilters) (o : FetchOutcome)
    (data : Jsonv) (r : Option OutRequest)
    (h : doFetch cfg "top-headlines" (headParams f) o = (.ok data, r)) :
    getTopHeadlines cfg f o = (.ok (normalizeResult data), r) := by
  simp [getTopHeadlines, h]

/-- The request `getTopHeadlines` performs is the one `doFetch` performs. -/
theorem getTopHeadlines_snd (cfg : Config) (f : HeadFilters) (o : FetchOutcome) :
    (getTopHeadlines cfg f o).2 = (doFetch cfg "top-headlines" (headParams f) o).2 := by
  cases hd : doFetch cfg "top-headlines" (headParams f) o with
  | mk fst snd => cases fst <;> simp [getTopHeadlines, hd]

/-- With a non-empty trimmed query, `searchEverything` passes a `doFetch`
rejection through unchanged. -/
theorem searchEverything_error (cfg : Config) (f : SearchFilters) (o : FetchOutcome)
    (e : JsError) (r : Option OutRequest)
    (hq : (trimmedQuery f == "") = false)
    (h : doFetch cfg "search" (searchParams f (trimmedQuery f)) o = (.error e, r)) :
    searchEverything cfg f o = (.error e, r) := by
  simp [searchEverything, hq, h]

/-- With a non-empty trimmed query, `searchEverything` normalizes a
`doFetch` payload. -/
theorem searchEverything_ok (cfg : Config) (f : SearchFilters) (o : FetchOutcome)
    (data : Jsonv) (r : Option OutRequest)
    (hq : (trimmedQuery f == "") = false)
    (h : doFetch cfg "search" (searchParams f (trimmedQuery f)) o = (.ok data, r)) :
    searchEverything cfg f o = (.ok (normalizeResult data), r) := by
  simp [searchEverything, hq, h]

/-- A request performed by `searchEverything` is one `doFetch` performed on
the `search` endpoint with the built params (so the query was non-empty). -/
theorem searchEverything_snd_some (cfg : Config) (f : SearchFilters) (o : FetchOutcome)
    (req : OutRequest) (h : (searchEverything cfg f o).2 = some req) :
    (trimmedQuery f == "") = false ∧
    (doFetch cfg "search" (searchParams f (trimmedQuery f)) o).2 = some req := by
  by_cases hq : (trimmedQuery f == "") = true
  · simp [searchEverything, hq] at h
  · rw [Bool.not_eq_true] at hq
    refine ⟨hq, ?_⟩
    rw [← h]
    cases hd : doFetch cfg "search" (searchParams f (trimmedQuery f)) o with
    | mk fst snd => cases fst <;> simp [searchEverything, hq, hd]

/-!  Arithmetic facts about the parameter clamps. -/

/-- The shipped pageSize always lies in `[1, 100]`. -/
theorem safePageSize_bounds (v : Option Jsonv) :
    1 ≤ safePageSize v ∧ safePageSize v ≤ 100 := by
  constructor
  · exact le_min (le_max_left 1 _) (by norm_num)
  · exact min_le_right _ _

/-- The shipped page is always at least `1`. -/
theorem safePage_bounds (v : Option Jsonv) : 1 ≤ safePage v :=
  le_max_left 1 _

/-- A pageSize whose `Number` coercion is `0` or `NaN` ships as the
default `10`. -/
theorem safePageSize_default (v : Jsonv)
    (h : jsToNumber v = some 0 ∨ jsToNumber v = none) :
    safePageSize (some v) = 10 := by
  rcases h with h | h <;> simp [safePageSize, h, numOr]

/-- A strictly negative pageSize ships as `1`. -/
theorem safePageSize_neg (v : Jsonv) (n : Int)
    (hc : jsToNumber v = some n) (hn : n < 0) :
    safePageSize (some v) = 1 := by
  have hne : ¬n = 0 := by omega
  simp only [safePageSize, Option.getD, hc, numOr, if_neg hne]
  rw [max_eq_left (by omega : n ≤ 1), min_eq_left (by norm_num : (1 : Int) ≤ 100)]

/-- A positive pageSize ships clamped only from above. -/
theorem safePageSize_pos (v : Jsonv) (n : Int)
    (hc : jsToNumber v = some n) (hn : 0 < n) :
    safePageSize (some v) = min n 100 := by
  have hne : ¬n = 0 := by omega
  simp only [safePageSize, Option.getD, hc, numOr, if_neg hne]
  rw [max_eq_right (by omega : 1 ≤ n)]

/-- A page whose `Number` coercion is `0` or `NaN` ships as `1`. -/
theorem safePage_default (v : Jsonv)
    (h : jsToNumber v = some 0 ∨ jsToNumber v = none) :
    safePage (some v) = 1 := by
  rcases h with h | h <;> simp [safePage, h, numOr]

/-!  The configured API key only ever flows into the request headers, never
into the resolved result or any error. -/

/-- The resolved component of `doFetch` is identical for any two non-empty
configured keys. -/
theorem doFetch_fst_key_indep (base k1 k2 : String)
    (h1 : (k1 == "") = false) (h2 : (k2 == "") = false)
    (ep : String) (ps : List (String × Jsonv)) (o : FetchOutcome) :
    (doFetch ⟨base, some k1⟩ ep ps o).1 = (doFetch ⟨base, some k2⟩ ep ps o).1 := by
  by_cases hv : validHttpBase base
  · cases o with
    | failure err => simp [doFetch, hv, keyMissing, h1, h2]
    | response status body =>
      simp [doFetch, hv, keyMissing, h1, h2]
      split <;> rfl
  · rw [Bool.not_eq_true] at hv
    simp [doFetch, hv]

/-- The resolved component of `getTopHeadlines` is the `doFetch` outcome
with the payload normalized. -/
theorem getTopHeadlines_fst (cfg : Config) (f : HeadFilters) (o : FetchOutcome) :
    (getTopHeadlines cfg f o).1 =
      Except.map normalizeResult (doFetch cfg "top-headlines" (headParams f) o).1 := by
  cases hd : doFetch cfg "top-headlines" (headParams f) o with
  | mk fst snd => cases fst <;> simp [getTopHeadlines, hd, Except.map]

/-- The resolved component of `searchEverything`: validation first, then the
`doFetch` outcome with the payload normalized. -/
theorem searchEverything_fst (cfg : Config) (f : SearchFilters) (o : FetchOutcome) :
    (searchEverything cfg f o).1 =
      (if (trimmedQuery f == "") then
        .error { message := "Please enter a search term.", code := some "VALIDATION" }
      else
        Except.map normalizeResult
          (doFetch cfg "search" (searchParams f (trimmedQuery f)) o).1) := by
  by_cases hq : (trimmedQuery f == "") = true
  · simp [searchEverything, hq]
  · rw [Bool.not_eq_true] at hq
    cases hd : doFetch cfg "search" (searchParams f (trimmedQuery f)) o with
    | mk fst snd => cases fst <;> simp [searchEverything, hq, hd, Except.map]

/-!  Claim theorems. -/

/-- C1: on every successful call — whatever the payload, including a body
that failed to parse, a non-object, or an object missing fields —
`getTopHeadlines` and `searchEverything` resolve with a `QueryResult` whose
`articles` is the payload's `articles` when that is an array and the empty
list otherwise (never null/undefined), and whose `totalResults` is the
payload's `totalResults` or `0`. -/
theorem claim1_success_normalization (cfg : Config) (hf : HeadFilters) (sf : SearchFilters)
    (status : Nat) (body : Option Jsonv)
    (hv : validHttpBase cfg.base = true)
    (hk : (!(isProxyBase cfg.base) && keyMissing cfg) = false)
    (hr : (!(resOk status) || payloadSaysError (body.getD .jnull)) = false)
    (hq : (trimmedQuery sf == "") = false) :
    ∃ r : QueryResult,
      (getTopHeadlines cfg hf (.response status body)).1 = .ok r ∧
      (searchEverything cfg sf (.response status body)).1 = .ok r ∧
      r.totalResults = jsOr (jsGet (body.getD .jnull) "totalResults") (.jnum 0) ∧
      r.articles = asArray (jsGet (body.getD .jnull) "articles") := by
  obtain ⟨req1, h1⟩ :=
    doFetch_response_ok cfg "top-headlines" (headParams hf) status body hv hk hr
  obtain ⟨req2, h2⟩ :=
    doFetch_response_ok cfg "search" (searchParams sf (trimmedQuery sf)) status body hv hk hr
  refine ⟨normalizeResult (body.getD .jnull), ?_, ?_, rfl, rfl⟩
  · rw [getTopHeadlines_ok cfg hf _ _ _ h1]
  · rw [searchEverything_ok cfg sf _ _ _ hq h2]

/-- C1 witness: direct config, body that failed to parse, query `dogs`. -/
theorem claim1_witness :
    ∃ r : QueryResult,
      (getTopHeadlines ⟨"https://newsapi.org/v2", some "key"⟩ {} (.response 200 none)).1 = .ok r ∧
      (searchEverything ⟨"https://newsapi.org/v2", some "key"⟩ { q := some (.jstr "dogs") }
          (.response 200 none)).1 = .ok r ∧
      r.totalResults = jsOr (jsGet ((none : Option Jsonv).getD .jnull) "totalResults") (.jnum 0) ∧
      r.articles = asArray (jsGet ((none : Option Jsonv).getD .jnull) "articles") :=
  claim1_success_normalization ⟨"https://newsapi.org/v2", some "key"⟩ {}
    { q := some (.jstr "dogs") } 200 none (by decide) (by decide) (by decide) (by decide)

/-- C2 counterexample: in direct mode with no key configured, a
`searchEverything` call whose query is empty rejects with `VALIDATION`,
not `CONFIG`, falsifying the claim's universal quantification over calls. -/
theorem claim2_counterexample :
    isProxyBase "https://newsapi.org/v2" = false ∧
    errCode (searchEverything ⟨"https://newsapi.org/v2", none⟩ {}
      (.response 200 (some (.jobj [])))).1 = some "VALIDATION" ∧
    errCode (searchEverything ⟨"https://newsapi.org/v2", none⟩ {}
      (.response 200 (some (.jobj [])))).1 ≠ some "CONFIG" := by
  refine ⟨by decide, rfl, by decide⟩

/-- C2 (amended): in direct mode with no API key configured, every
`getTopHeadlines` call and every `searchEverything` call whose query is
non-empty after trimming rejects with `code = CONFIG` and performs no
request; a `searchEverything` call whose query trims to empty rejects
earlier with `code = VALIDATION`, also performing no request. -/
theorem claim2_direct_missing_key (cfg : Config) (hf : HeadFilters) (sf : SearchFilters)
    (o : FetchOutcome) (hd : isProxyBase cfg.base = false) (hkey : cfg.apiKey = none) :
    (errCode (getTopHeadlines cfg hf o).1 = some "CONFIG" ∧
      (getTopHeadlines cfg hf o).2 = none) ∧
    ((trimmedQuery sf == "") = false →
      errCode (searchEverything cfg sf o).1 = some "CONFIG" ∧
      (searchEverything cfg sf o).2 = none) ∧
    ((trimmedQuery sf == "") = true →
      errCode (searchEverything cfg sf o).1 = some "VALIDATION" ∧
      (searchEverything cfg sf o).2 = none) := by
  have hcond : (!(isProxyBase cfg.base) && keyMissing cfg) = true := by
    simp [hd, keyMissing, hkey]
  refine ⟨?_, ?_, ?_⟩
  · obtain ⟨e, he, hc⟩ :=
      doFetch_config_reject cfg "top-headlines" (headParams hf) o (Or.inr hcond)
    rw [getTopHeadlines_error cfg hf o e none he]
    exact ⟨by simp [errCode, hc], rfl⟩
  · intro hq
    obtain ⟨e, he, hc⟩ :=
      doFetch_config_reject cfg "search" (searchParams sf (trimmedQuery sf)) o (Or.inr hcond)
    rw [searchEverything_error cfg sf o e none hq he]
    exact ⟨by simp [errCode, hc], rfl⟩
  · intro hq
    simp [searchEverything, hq, errCode]

/-- C2 witness: direct default base, no key; query `x` gets `CONFIG`,
and neither call performs a request. -/
theorem claim2_witness :
    (errCode (getTopHeadlines ⟨"https://newsapi.org/v2", none⟩ {}
        (.response 200 none)).1 = some "CONFIG" ∧
      (getTopHeadlines ⟨"https://newsapi.org/v2", none⟩ {} (.response 200 none)).2 = none) ∧
    ((trimmedQuery { q := some (.jstr "x") } == "") = false →
      errCode (searchEverything ⟨"https://newsapi.org/v2", none⟩ { q := some (.jstr "x") }
        (.response 200 none)).1 = some "CONFIG" ∧
      (searchEverything ⟨"https://newsapi.org/v2", none⟩ { q := some (.jstr "x") }
        (.response 200 none)).2 = none) ∧
    ((trimmedQuery { q := some (.jstr "x") } == "") = true →
      errCode (searchEverything ⟨"https://newsapi.org/v2", none⟩ { q := some (.jstr "x") }
        (.response 200 none)).1 = some "VALIDATION" ∧
      (searchEverything ⟨"https://newsapi.org/v2", none⟩ { q := some (.jstr "x") }
        (.response 200 none)).2 = none) :=
  claim2_direct_missing_key ⟨"https://newsapi.org/v2", none⟩ {} { q := some (.jstr "x") }
    (.response 200 none) (by decide) rfl

/-- C3 counterexample: a pageSize input of `0` is sent as the default `10`,
not clamped to `1` as the claim states. -/
theorem claim3_counterexample :
    sentParam (getTopHeadlines ⟨"https://newsapi.org/v2", some "key"⟩
      { pageSize := some (.jnum 0) } (.response 200 (some (.jobj [])))).2 "pageSize" =
      some (.jnum 10) ∧
    some (Jsonv.jnum 10) ≠ some (Jsonv.jnum 1) := by
  refine ⟨rfl, ?_⟩
  intro h
  injection h with h
  injection h with h
  omega

/-- C3 (amended): the pageSize each request ships lies in `[1, 100]`: `500`
is clamped to `100` and negative inputs to `1`, while an input of `0`
(falsy after `Number` coercion) is replaced by the default `10`; the page
shipped is always at least `1`. -/
theorem claim3_clamping (cfg : Config) (hf : HeadFilters) (sf : SearchFilters)
    (o : FetchOutcome) (req reqS : OutRequest)
    (h1 : (getTopHeadlines cfg hf o).2 = some req)
    (h2 : (searchEverything cfg sf o).2 = some reqS) :
    req.params.lookup "pageSize" = some (.jnum (safePageSize hf.pageSize)) ∧
    req.params.lookup "page" = some (.jnum (safePage hf.page)) ∧
    reqS.params.lookup "pageSize" = some (.jnum (safePageSize sf.pageSize)) ∧
    reqS.params.lookup "page" = some (.jnum (safePage sf.page)) ∧
    (∀ v : Option Jsonv, 1 ≤ safePageSize v ∧ safePageSize v ≤ 100 ∧ 1 ≤ safePage v) ∧
    safePageSize (some (.jnum 500)) = 100 ∧
    (∀ n : Int, n < 0 → safePageSize (some (.jnum n)) = 1) ∧
    safePageSize (some (.jnum 0)) = 10 := by
  rw [getTopHeadlines_snd] at h1
  obtain ⟨hp1, -, -, -, -⟩ := doFetch_snd_some cfg "top-headlines" (headParams hf) o req h1
  obtain ⟨-, h2d⟩ := searchEverything_snd_some cfg sf o reqS h2
  obtain ⟨hp2, -, -, -, -⟩ :=
    doFetch_snd_some cfg "search" (searchParams sf (trimmedQuery sf)) o reqS h2d
  refine ⟨?_, ?_, ?_, ?_, ?_, by decide, ?_, by decide⟩
  · simp [hp1, headParams, List.lookup]
  · simp [hp1, headParams, List.lookup]
  · simp [hp2, searchParams, List.lookup]
  · simp [hp2, searchParams, List.lookup]
  · exact fun v => ⟨(safePageSize_bounds v).1, (safePageSize_bounds v).2, safePage_bounds v⟩
  · exact fun n hn => safePageSize_neg (.jnum n) n rfl hn

/-- C3 amended-claim witness: a direct-mode run of both calls. -/
theorem claim3_witness :
    (getTopHeadlines ⟨"https://newsapi.org/v2", some "key"⟩ {} (.response 200 none)).2 =
      some (builtRequest ⟨"https://newsapi.org/v2", some "key"⟩ "top-headlines"
        (headParams {})) ∧
    (builtRequest ⟨"https://newsapi.org/v2", some "key"⟩ "top-headlines"
      (headParams {})).params.lookup "pageSize" = some (.jnum (safePageSize none)) := by
  constructor
  · rfl
  · exact (claim3_clamping ⟨"https://newsapi.org/v2", some "key"⟩ {}
      { q := some (.jstr "dogs") } (.response 200 none) _ _ rfl rfl).1

/-- C4: a `searchEverything` call whose query is absent, empty, or trims to
empty rejects with `code = VALIDATION` whatever the configuration and
whatever the transport would have delivered, and performs no request. -/
theorem claim4_empty_query_validation (cfg : Config) (sf : SearchFilters) (o : FetchOutcome)
    (h : (trimmedQuery sf == "") = true) :
    searchEverything cfg sf o =
      (.error { message := "Please enter a search term.", code := some "VALIDATION" }, none) := by
  simp [searchEverything, h]

/-- C4 witness: a whitespace-only query under an unconfigured proxy base. -/
theorem claim4_witness :
    searchEverything ⟨"not-a-url", none⟩ { q := some (.jstr "   ") }
        (.response 500 none) =
      (.error { message := "Please enter a search term.", code := some "VALIDATION" }, none) :=
  claim4_empty_query_validation ⟨"not-a-url", none⟩ { q := some (.jstr "   ") }
    (.response 500 none) (by decide)

/-- C5 counterexample: an abort rejection (timeout or caller cancellation
rejects `fetch` with an `AbortError`-named exception) does not match the
network/CORS signature, so the call rejects with the original error, which
carries no `code` at all — not `code = NETWORK` as the claim states. -/
theorem claim5_counterexample :
    errCode (getTopHeadlines ⟨"https://newsapi.org/v2", some "key"⟩ {}
      (.failure { name := "AbortError", message := "The user aborted a request." })).1 = none ∧
    (none : Option String) ≠ some "NETWORK" := by
  exact ⟨rfl, by decide⟩

/-- C5 (amended): on every transport failure the call rejects — never
resolves silently; the rejection carries `code = NETWORK` when the thrown
error matches the browser network/CORS signature (name `TypeError` and a
message mentioning a fetch/network/load/CORS failure), and otherwise —
including abort errors from the timeout or the caller's cancellation — the
thrown error propagates unchanged. -/
theorem claim5_transport_failure (cfg : Config) (hf : HeadFilters) (sf : SearchFilters)
    (err : JsError)
    (hv : validHttpBase cfg.base = true)
    (hk : (!(isProxyBase cfg.base) && keyMissing cfg) = false)
    (hq : (trimmedQuery sf == "") = false) :
    (∃ e, (getTopHeadlines cfg hf (.failure err)).1 = .error e ∧
      (isNetworkOrCORSError err = true → e.code = some "NETWORK") ∧
      (isNetworkOrCORSError err = false → e = err)) ∧
    (∃ e, (searchEverything cfg sf (.failure err)).1 = .error e ∧
      (isNetworkOrCORSError err = true → e.code = some "NETWORK") ∧
      (isNetworkOrCORSError err = false → e = err)) := by
  obtain ⟨url1, req1, hd1⟩ := doFetch_failure cfg "top-headlines" (headParams hf) err hv hk
  obtain ⟨url2, req2, hd2⟩ :=
    doFetch_failure cfg "search" (searchParams sf (trimmedQuery sf)) err hv hk
  constructor
  · refine ⟨toUserFacingError err url1 (modeOf cfg.base), ?_, ?_, ?_⟩
    · rw [getTopHeadlines_error cfg hf _ _ _ hd1]
    · intro hnet
      simp [toUserFacingError, hnet]
    · intro hnet
      simp [toUserFacingError, hnet]
  · refine ⟨toUserFacingError err url2 (modeOf cfg.base), ?_, ?_, ?_⟩
    · rw [searchEverything_error cfg sf _ _ _ hq hd2]
    · intro hnet
      simp [toUserFacingError, hnet]
    · intro hnet
      simp [toUserFacingError, hnet]

/-- C5 amended-claim witness: a CORS-style `TypeError` on a direct call. -/
theorem claim5_witness :
    (∃ e, (getTopHeadlines ⟨"https://newsapi.org/v2", some "key"⟩ {}
        (.failure { name := "TypeError", message := "Failed to fetch" })).1 = .error e ∧
      (isNetworkOrCORSError { name := "TypeError", message := "Failed to fetch" } = true →
        e.code = some "NETWORK") ∧
      (isNetworkOrCORSError { name := "TypeError", message := "Failed to fetch" } = false →
        e = { name := "TypeError", message := "Failed to fetch" })) ∧
    (∃ e, (searchEverything ⟨"https://newsapi.org/v2", some "key"⟩ { q := some (.jstr "dogs") }
        (.failure { name := "TypeError", message := "Failed to fetch" })).1 = .error e ∧
      (isNetworkOrCORSError { name := "TypeError", message := "Failed to fetch" } = true →
        e.code = some "NETWORK") ∧
      (isNetworkOrCORSError { name := "TypeError", message := "Failed to fetch" } = false →
        e = { name := "TypeError", message := "Failed to fetch" })) :=
  claim5_transport_failure ⟨"https://newsapi.org/v2", some "key"⟩ {}
    { q := some (.jstr "dogs") } { name := "TypeError", message := "Failed to fetch" }
    (by decide) (by decide) (by decide)

/-- C6: the resolved/rejected result of either call — its error message
included — is identical for any two runs that differ only in which
non-empty API key is configured; the key never influences anything but the
credential header of the outgoing request. -/
theorem claim6_key_noninterference (base k1 k2 : String)
    (h1 : k1 ≠ "") (h2 : k2 ≠ "")
    (hf : HeadFilters) (sf : SearchFilters) (o : FetchOutcome) :
    (getTopHeadlines ⟨base, some k1⟩ hf o).1 = (getTopHeadlines ⟨base, some k2⟩ hf o).1 ∧
    (searchEverything ⟨base, some k1⟩ sf o).1 = (searchEverything ⟨base, some k2⟩ sf o).1 := by
  have hb1 : (k1 == "") = false := by simp [h1]
  have hb2 : (k2 == "") = false := by simp [h2]
  constructor
  · rw [getTopHeadlines_fst, getTopHeadlines_fst,
      doFetch_fst_key_indep base k1 k2 hb1 hb2 "top-headlines" (headParams hf) o]
  · rw [searchEverything_fst, searchEverything_fst,
      doFetch_fst_key_indep base k1 k2 hb1 hb2 "search" (searchParams sf (trimmedQuery sf)) o]

/-- C6 witness: two distinct keys on a rejected upstream response. -/
theorem claim6_witness :
    (getTopHeadlines ⟨"https://newsapi.org/v2", some "AAAA"⟩ {}
        (.response 401 (some (.jobj [("message", .jstr "bad key")])))).1 =
      (getTopHeadlines ⟨"https://newsapi.org/v2", some "BBBB"⟩ {}
        (.response 401 (some (.jobj [("message", .jstr "bad key")])))).1 ∧
    (searchEverything ⟨"https://newsapi.org/v2", some "AAAA"⟩ { q := some (.jstr "x") }
        (.response 401 (some (.jobj [("message", .jstr "bad key")])))).1 =
      (searchEverything ⟨"https://newsapi.org/v2", some "BBBB"⟩ { q := some (.jstr "x") }
        (.response 401 (some (.jobj [("message", .jstr "bad key")])))).1 :=
  claim6_key_noninterference "https://newsapi.org/v2" "AAAA" "BBBB"
    (by decide) (by decide) {} { q := some (.jstr "x") }
    (.response 401 (some (.jobj [("message", .jstr "bad key")])))

/-- C7: every request that reaches the transport carries the configured
(non-empty) API key in the `X-Api-Key` header in direct mode, and carries no
header at all in proxy mode. -/
theorem claim7_credential_header (cfg : Config) (ep : String)
    (ps : List (String × Jsonv)) (o : FetchOutcome) (req : OutRequest)
    (h : (doFetch cfg ep ps o).2 = some req) :
    (isProxyBase cfg.base = true → req.headers = []) ∧
    (isProxyBase cfg.base = false →
      ∃ k, cfg.apiKey = some k ∧ (k == "") = false ∧
        req.headers = [("X-Api-Key", k)]) := by
  obtain ⟨-, -, hh, -, hk⟩ := doFetch_snd_some cfg ep ps o req h
  constructor
  · intro hp
    simpa [hp] using hh
  · intro hp
    simp [hp] at hh hk
    cases hck : cfg.apiKey with
    | none => simp [keyMissing, hck] at hk
    | some k =>
      refine ⟨k, rfl, ?_, ?_⟩
      · simpa [keyMissing, hck] using hk
      · simpa [hck] using hh

/-- C7 witness: a direct-mode search request carrying the key header. -/
theorem claim7_witness :
    (isProxyBase "https://newsapi.org/v2" = true →
      (builtRequest ⟨"https://newsapi.org/v2", some "key"⟩ "search" []).headers = []) ∧
    (isProxyBase "https://newsapi.org/v2" = false →
      ∃ k, (Config.mk "https://newsapi.org/v2" (some "key")).apiKey = some k ∧
        (k == "") = false ∧
        (builtRequest ⟨"https://newsapi.org/v2", some "key"⟩ "search" []).headers =
          [("X-Api-Key", k)]) :=
  claim7_credential_header ⟨"https://newsapi.org/v2", some "key"⟩ "search" []
    (.response 200 (some (.jobj []))) _ rfl

/-- C8: the logical endpoint `top-headlines` always resolves to itself;
`search` resolves to `everything` exactly when the base URL contains the
upstream hostname `newsapi.org` case-insensitively (direct mode) and to
`search` otherwise; the mode is `proxy` iff the base does not contain that
hostname. -/
theorem claim8_endpoint_resolution (base : String) :
    resolvePath (isProxyBase base) "top-headlines" = "top-headlines" ∧
    (resolvePath (isProxyBase base) "search" = "everything" ↔
      strContainsSub (lowerStr base) "newsapi.org" = true) ∧
    (resolvePath (isProxyBase base) "search" = "search" ↔
      strContainsSub (lowerStr base) "newsapi.org" = false) ∧
    (modeOf base = "proxy" ↔ strContainsSub (lowerStr base) "newsapi.org" = false) := by
  cases hc : strContainsSub (lowerStr base) "newsapi.org" <;>
    simp [resolvePath, isProxyBase, modeOf, hc]

/-- C9: a response outside the success range (or carrying an explicit error
indicator) rejects with an error holding the original status and raw
payload, whose message is the rate-limit text at 429, the unavailability
text at 5xx, the unauthorized text at 401/403, and otherwise the payload's
`message`/`error` field or the generic fallback. -/
theorem claim9_status_mapping (cfg : Config) (ep : String) (ps : List (String × Jsonv))
    (status : Nat) (body : Option Jsonv)
    (hv : validHttpBase cfg.base = true)
    (hk : (!(isProxyBase cfg.base) && keyMissing cfg) = false)
    (hbad : (!(resOk status) || payloadSaysError (body.getD .jnull)) = true) :
    ∃ e, (doFetch cfg ep ps (.response status body)).1 = .error e ∧
      e.status = some status ∧ e.details = some (body.getD .jnull) ∧
      (status = 429 →
        e.message = "Rate limit reached. Please wait a minute before trying again.") ∧
      (status ≠ 429 → 500 ≤ status →
        e.message = "News service is currently unavailable. Please try again later.") ∧
      (status = 401 ∨ status = 403 →
        e.message = "Unauthorized: Please ensure a valid NewsAPI key is configured (direct mode) or proxy is authorized.") ∧
      (status ≠ 429 → status < 500 → status ≠ 401 → status ≠ 403 →
        e.message = jsToString (jsOr (jsGet (body.getD .jnull) "message")
          (jsOr (jsGet (body.getD .jnull) "error")
            (.jstr "Unexpected error contacting news service.")))) := by
  obtain ⟨req, hd⟩ := doFetch_response_err cfg ep ps status body hv hk hbad
  refine ⟨{ message := jsToString (mapApiError status (body.getD .jnull))
            status := some status
            details := some (body.getD .jnull) },
    by rw [hd], rfl, rfl, ?_, ?_, ?_, ?_⟩
  · intro h429
    simp [mapApiError, h429, jsToString]
  · intro hne h500
    simp [mapApiError, hne, h500, jsToString]
  · intro h4x
    have hne : status ≠ 429 := by rcases h4x with h | h <;> omega
    have h5 : ¬(500 ≤ status) := by rcases h4x with h | h <;> omega
    simp [mapApiError, hne, h5, h4x, jsToString]
  · intro hne h5lt h401 h403
    have h5 : ¬(500 ≤ status) := by omega
    have hor : ¬(status = 401 ∨ status = 403) := not_or.mpr ⟨h401, h403⟩
    simp [mapApiError, hne, h5, hor]

/-- C9 witness: a 429 response with an empty-object payload. -/
theorem claim9_witness :
    ∃ e, (doFetch ⟨"https://newsapi.org/v2", some "key"⟩ "top-headlines" []
        (.response 429 (some (.jobj [])))).1 = .error e ∧
      e.status = some 429 ∧ e.details = some ((some (Jsonv.jobj [])).getD .jnull) ∧
      (429 = 429 →
        e.message = "Rate limit reached. Please wait a minute before trying again.") ∧
      (429 ≠ 429 → 500 ≤ 429 →
        e.message = "News service is currently unavailable. Please try again later.") ∧
      (429 = 401 ∨ 429 = 403 →
        e.message = "Unauthorized: Please ensure a valid NewsAPI key is configured (direct mode) or proxy is authorized.") ∧
      (429 ≠ 429 → 429 < 500 → 429 ≠ 401 → 429 ≠ 403 →
        e.message = jsToString (jsOr (jsGet ((some (Jsonv.jobj [])).getD .jnull) "message")
          (jsOr (jsGet ((some (Jsonv.jobj [])).getD .jnull) "error")
            (.jstr "Unexpected error contacting news service.")))) :=
  claim9_status_mapping ⟨"https://newsapi.org/v2", some "key"⟩ "top-headlines" []
    429 (some (.jobj [])) (by decide) (by decide) (by decide)

/-- C10: an input whose `Number` coercion is `0` or `NaN` (such as `0`, the
empty string, or a non-numeric string) ships as the default `10` for
pageSize but as `1` for page; only strictly negative pageSize coercions are
raised to `1`, positive ones are clamped only from above. -/
theorem claim10_zero_nan_default (cfg : Config) (hf : HeadFilters) (sf : SearchFilters)
    (o : FetchOutcome) (req reqS : OutRequest)
    (h1 : (getTopHeadlines cfg hf o).2 = some req)
    (h2 : (searchEverything cfg sf o).2 = some reqS) :
    (∀ v, hf.pageSize = some v → (jsToNumber v = some 0 ∨ jsToNumber v = none) →
      req.params.lookup "pageSize" = some (.jnum 10)) ∧
    (∀ v n, hf.pageSize = some v → jsToNumber v = some n → n < 0 →
      req.params.lookup "pageSize" = some (.jnum 1)) ∧
    (∀ v n, hf.pageSize = some v → jsToNumber v = some n → 0 < n →
      req.params.lookup "pageSize" = some (.jnum (min n 100))) ∧
    (∀ w, hf.page = some w → (jsToNumber w = some 0 ∨ jsToNumber w = none) →
      req.params.lookup "page" = some (.jnum 1)) ∧
    (∀ v, sf.pageSize = some v → (jsToNumber v = some 0 ∨ jsToNumber v = none) →
      reqS.params.lookup "pageSize" = some (.jnum 10)) ∧
    (∀ v n, sf.pageSize = some v → jsToNumber v = some n → n < 0 →
      reqS.params.lookup "pageSize" = some (.jnum 1)) ∧
    (∀ v n, sf.pageSize = some v → jsToNumber v = some n → 0 < n →
      reqS.params.lookup "pageSize" = some (.jnum (min n 100))) ∧
    (∀ w, sf.page = some w → (jsToNumber w = some 0 ∨ jsToNumber w = none) →
      reqS.params.lookup "page" = some (.jnum 1)) := by
  rw [getTopHeadlines_snd] at h1
  obtain ⟨hp1, -, -, -, -⟩ := doFetch_snd_some cfg "top-headlines" (headParams hf) o req h1
  obtain ⟨-, h2d⟩ := searchEverything_snd_some cfg sf o reqS h2
  obtain ⟨hp2, -, -, -, -⟩ :=
    doFetch_snd_some cfg "search" (searchParams sf (trimmedQuery sf)) o reqS h2d
  have lkps1 : req.params.lookup "pageSize" = some (.jnum (safePageSize hf.pageSize)) := by
    simp [hp1, headParams, List.lookup]
  have lkpg1 : req.params.lookup "page" = some (.jnum (safePage hf.page)) := by
    simp [hp1, headParams, List.lookup]
  have lkps2 : reqS.params.lookup "pageSize" = some (.jnum (safePageSize sf.pageSize)) := by
    simp [hp2, searchParams, List.lookup]
  have lkpg2 : reqS.params.lookup "page" = some (.jnum (safePage sf.page)) := by
    simp [hp2, searchParams, List.lookup]
  refine ⟨?_, ?_, ?_, ?_, ?_, ?_, ?_, ?_⟩
  · intro v hv hc
    rw [lkps1, hv, safePageSize_default v hc]
  · intro v n hv hc hn
    rw [lkps1, hv, safePageSize_neg v n hc hn]
  · intro v n hv hc hn
    rw [lkps1, hv, safePageSize_pos v n hc hn]
  · intro w hw hc
    rw [lkpg1, hw, safePage_default w hc]
  · intro v hv hc
    rw [lkps2, hv, safePageSize_default v hc]
  · intro v n hv hc hn
    rw [lkps2, hv, safePageSize_neg v n hc hn]
  · intro v n hv hc hn
    rw [lkps2, hv, safePageSize_pos v n hc hn]
  · intro w hw hc
    rw [lkpg2, hw, safePage_default w hc]

/-- C10 witness: pageSize `0` and page given as an empty string both ship as
their documented replacements on a concrete direct-mode run. -/
theorem claim10_witness :
    sentParam (getTopHeadlines ⟨"https://newsapi.org/v2", some "key"⟩
      { pageSize := some (.jnum 0), page := some (.jstr "") }
      (.response 200 (some (.jobj [])))).2 "pageSize" = some (.jnum 10) ∧
    sentParam (getTopHeadlines ⟨"https://newsapi.org/v2", some "key"⟩
      { pageSize := some (.jnum 0), page := some (.jstr "") }
      (.response 200 (some (.jobj [])))).2 "page" = some (.jnum 1) ∧
    sentParam (searchEverything ⟨"https://newsapi.org/v2", some "key"⟩
      { q := some (.jstr "x"), pageSize := some (.jstr "abc") }
      (.response 200 (some (.jobj [])))).2 "pageSize" = some (.jnum 10) := by
  have h := claim10_zero_nan_default ⟨"https://newsapi.org/v2", some "key"⟩
    { pageSize := some (.jnum 0), page := some (.jstr "") }
    { q := some (.jstr "x"), pageSize := some (.jstr "abc") }
    (.response 200 (some (.jobj [])))
    (builtRequest ⟨"https://newsapi.org/v2", some "key"⟩ "top-headlines"
      (headParams { pageSize := some (.jnum 0), page := some (.jstr "") }))
    (builtRequest ⟨"https://newsapi.org/v2", some "key"⟩ "search"
      (searchParams { q := some (.jstr "x"), pageSize := some (.jstr "abc") } "x"))
    rfl rfl
  refine ⟨?_, ?_, ?_⟩
  · have hx := h.1 (.jnum 0) rfl (Or.inl (by decide))
    simpa [sentParam] using hx
  · have hx := h.2.2.2.1 (.jstr "") rfl (Or.inl (by decide))
    simpa [sentParam] using hx
  · have hx := h.2.2.2.2.1 (.jstr "abc") rfl (Or.inr (by decide))
    simpa [sentParam] using hx

end NewsClient
